import Mathlib

/-!
Shallow embedding of the breezy-pdf-ai-reader repository (a React PDF viewer
with an annotation overlay and a mocked AI assistant) and proofs about it.

The embedding covers:
* the `PDFPage` component's local annotation state and its pointer-event
  handlers `handleMouseDown`, `handleMouseMove`, `handleMouseUp`,
  `handleTextSelection`, and the `renderPage` effect (reset of the four
  annotation lists, text extraction, `onPageRendered` callback);
* the `PDFViewer` component's document state: `loadPDF`, `goToPage`,
  `handlePreviousPage`, `handleNextPage`, `handlePageRendered`,
  `getCurrentPageText`;
* the `AIAssistant` component's `handleQuerySubmit` and `mockAIResponse`.

JavaScript numbers used as pixel coordinates and page counts are modelled as
`Int`; the browser environment of an event (the event's client coordinates,
the target's bounding rectangle, the current window selection, the result of
the `prompt` dialog) is passed explicitly as a `PointerEnv` record.  Side
effects outside the component state (toasts, the `onPageRendered` callback)
are returned as explicit values alongside the new state.
-/

namespace BreezyPDF

/-- A 2-D point in the rendered page's pixel space. -/
structure Point where
  x : Int
  y : Int
deriving Repr, DecidableEq

/-- A DOMRect as returned by `getBoundingClientRect` / `getClientRects`:
viewport-absolute left/top plus width/height. -/
structure ClientRect where
  left : Int
  top : Int
  width : Int
  height : Int
deriving Repr, DecidableEq

/-- A rectangle of a highlight, already translated into the text layer's
coordinate frame (the `{x, y, width, height}` records pushed in
`handleTextSelection`). -/
structure Rect where
  x : Int
  y : Int
  width : Int
  height : Int
deriving Repr, DecidableEq

/-- One entry of the `highlights` state list of `PDFPage`. -/
structure Highlight where
  rects : List Rect
  color : String
deriving Repr, DecidableEq

/-- One entry of the `paths` state list of `PDFPage`: the SVG path string
built during the stroke, the stroke color, and the tool type tag. -/
structure PathAnn where
  path : String
  color : String
  type : String
deriving Repr, DecidableEq

/-- One entry of the `textAnnotations` state list of `PDFPage`. -/
structure TextNote where
  x : Int
  y : Int
  text : String
deriving Repr, DecidableEq

/-- One entry of the `shapes` state list of `PDFPage`. -/
structure Shape where
  type : String
  x : Int
  y : Int
  width : Int
  height : Int
  color : String
deriving Repr, DecidableEq

/-- The part of a `window.getSelection()` result that the handlers read:
whether it is collapsed, the client rectangles of its first range, and its
string contents. -/
structure SelectionInfo where
  isCollapsed : Bool
  clientRects : List ClientRect
  text : String
deriving Repr, DecidableEq

/-- The browser environment observed by a pointer-event handler: the props
`activeTool` and `highlightColor`, the event's client coordinates, the
bounding rectangle of `e.currentTarget`, the current window selection (if
any), the bounding rectangle of the text layer, and the result of the
`prompt` dialog (`none` models the user cancelling). -/
structure PointerEnv where
  activeTool : String
  highlightColor : String
  clientX : Int
  clientY : Int
  targetRect : ClientRect
  selection : Option SelectionInfo
  containerRect : ClientRect
  promptResult : Option String
deriving Repr, DecidableEq

/-- The local state of one `PDFPage` view that the pointer handlers touch. -/
structure PageState where
  isDrawing : Bool
  startPoint : Point
  currentPath : String
  paths : List PathAnn
  highlights : List Highlight
  selectedText : String
  textAnnotations : List TextNote
  shapes : List Shape
deriving Repr, DecidableEq

/-- The point `(e.clientX - rect.left, e.clientY - rect.top)` computed at the
top of each pointer handler. -/
def eventPoint (env : PointerEnv) : Point :=
  { x := env.clientX - env.targetRect.left, y := env.clientY - env.targetRect.top }

/-- Translation of one selection client rectangle into the text layer's
frame, as pushed by the loop in `handleTextSelection`. -/
def relRect (container : ClientRect) (r : ClientRect) : Rect :=
  { x := r.left - container.left, y := r.top - container.top,
    width := r.width, height := r.height }

/-- Embedding of `handleTextSelection`: translates the selection's client
rectangles into the text layer's frame and, when at least one rectangle
exists, appends one highlight with the current highlight color and records
the selected text.  (The source finally clears the DOM selection, a side
effect outside this state.) -/
def handleTextSelection (sel : SelectionInfo) (container : ClientRect)
    (highlightColor : String) (s : PageState) : PageState :=
  let rects := sel.clientRects.map (relRect container)
  if rects.length > 0 then
    { s with highlights := s.highlights ++ [{ rects := rects, color := highlightColor }],
             selectedText := sel.text }
  else
    s

/-- Embedding of `handleMouseDown`.  `if (!activeTool) return` is the empty
string being falsy; the `tts` branch only drives speech synthesis and leaves
the component state unchanged. -/
def handleMouseDown (env : PointerEnv) (s : PageState) : PageState :=
  if env.activeTool = "" then s
  else
    let x := env.clientX - env.targetRect.left
    let y := env.clientY - env.targetRect.top
    if env.activeTool = "pen" then
      { s with isDrawing := true, startPoint := { x := x, y := y },
               currentPath := "M " ++ toString x ++ " " ++ toString y }
    else if env.activeTool = "highlight" then
      match env.selection with
      | some sel =>
          if sel.isCollapsed then s
          else handleTextSelection sel env.containerRect env.highlightColor s
      | none => s
    else if env.activeTool = "text" then
      match env.promptResult with
      | some t =>
          if t = "" then s
          else { s with textAnnotations := s.textAnnotations ++ [{ x := x, y := y, text := t }] }
      | none => s
    else if env.activeTool = "shape" then
      { s with isDrawing := true, startPoint := { x := x, y := y } }
    else
      s

/-- Embedding of `handleMouseMove`: while drawing with the pen, each move
appends one `L x y` segment to the current path string. -/
def handleMouseMove (env : PointerEnv) (s : PageState) : PageState :=
  if s.isDrawing = false ∨ env.activeTool = "" then s
  else
    let x := env.clientX - env.targetRect.left
    let y := env.clientY - env.targetRect.top
    if env.activeTool = "pen" then
      { s with currentPath := s.currentPath ++ " L " ++ toString x ++ " " ++ toString y }
    else
      s

/-- Embedding of `handleMouseUp`: ends a pen stroke by appending one
`PathAnn`, or ends a shape drag by appending one normalized rectangle; in
either case drawing stops. -/
def handleMouseUp (env : PointerEnv) (s : PageState) : PageState :=
  if env.activeTool = "" ∨ s.isDrawing = false then s
  else
    let x := env.clientX - env.targetRect.left
    let y := env.clientY - env.targetRect.top
    let s1 :=
      if env.activeTool = "pen" then
        { s with paths := s.paths ++ [{ path := s.currentPath,
                                        color := env.highlightColor, type := "pen" }],
                 currentPath := "" }
      else if env.activeTool = "shape" then
        let width := |x - s.startPoint.x|
        let height := |y - s.startPoint.y|
        let left := min x s.startPoint.x
        let top := min y s.startPoint.y
        { s with shapes := s.shapes ++ [{ type := "rectangle", x := left, y := top,
                                          width := width, height := height,
                                          color := env.highlightColor }] }
      else
        s
    { s1 with isDrawing := false }

/-- Extraction of a page's text in `renderPage`: for each text item that has
a `str` field (modelled as `some s`; marked-content items without one are
`none`), append the string followed by a single space to the accumulator. -/
def extractPageText (items : List (Option String)) : String :=
  items.foldl
    (fun acc it =>
      match it with
      | some s => acc ++ s ++ " "
      | none => acc)
    ""

/-- Embedding of the `renderPage` effect of `PDFPage`, which runs whenever
the document, the page number or the scale changes.  It first resets the
four annotation lists to empty, then renders the page at `scale` (the canvas
and text-layer DOM work is outside this model) and, when fetching the page's
text content succeeds (`fetched = some items`), invokes `onPageRendered`
once with the page number and the extracted text; `fetched = none` models
the catch branch, where no callback fires.  Returned alongside the new state
is the list of `onPageRendered` invocations. -/
def renderPage (pageNumber : Int) (scale : ℚ) (fetched : Option (List (Option String)))
    (s : PageState) : PageState × List (Int × String) :=
  let _ := scale
  let s1 := { s with highlights := ([] : List Highlight), paths := ([] : List PathAnn),
                     textAnnotations := ([] : List TextNote), shapes := ([] : List Shape) }
  match fetched with
  | some items => (s1, [(pageNumber, extractPageText items)])
  | none => (s1, [])

/-- The document proxy as far as `PDFViewer` reads it: its page count. -/
structure LoadedPDF where
  numPages : Int
deriving Repr, DecidableEq

/-- A toast notification as emitted through `useToast`. -/
structure Toast where
  title : String
  description : String
  isDestructive : Bool
deriving Repr, DecidableEq

/-- The `PDFViewer` component state touched by the claims: the loaded
document, page count, current page, and the page-number-to-extracted-text
map (a JavaScript object, modelled as a function). -/
structure ViewerState where
  pdfDocument : Option LoadedPDF
  totalPages : Int
  currentPage : Int
  pageTexts : Int → Option String

/-- Embedding of `loadPDF`: `result = some (pdf, fileName)` models
`getDocument` resolving, `none` models it throwing.  The new state is
returned with the single toast the call emits. -/
def loadPDF (result : Option (LoadedPDF × String)) (v : ViewerState) :
    ViewerState × Toast :=
  match result with
  | some (pdf, fileName) =>
      ({ v with pdfDocument := some pdf, totalPages := pdf.numPages, currentPage := 1 },
       { title := "PDF Loaded",
         description := "Successfully loaded \"" ++ fileName ++ "\" (" ++
           toString pdf.numPages ++ " pages)",
         isDestructive := false })
  | none =>
      (v,
       { title := "Error",
         description := "Failed to load PDF file. Please try another file.",
         isDestructive := true })

/-- Embedding of `goToPage`: sets the current page only when the requested
number is within `[1, totalPages]`. -/
def goToPage (pageNum : Int) (v : ViewerState) : ViewerState :=
  if pageNum ≥ 1 ∧ pageNum ≤ v.totalPages then { v with currentPage := pageNum } else v

/-- Embedding of `handlePreviousPage`. -/
def handlePreviousPage (v : ViewerState) : ViewerState :=
  goToPage (v.currentPage - 1) v

/-- Embedding of `handleNextPage`. -/
def handleNextPage (v : ViewerState) : ViewerState :=
  goToPage (v.currentPage + 1) v

/-- Embedding of `handlePageRendered`: stores the extracted text in the
`pageTexts` object under the page number, spreading the previous entries.
(The optional `onPageRender` prop forwarding does not touch the state.) -/
def handlePageRendered (pageNumber : Int) (textContent : String)
    (v : ViewerState) : ViewerState :=
  { v with pageTexts := fun q => if q = pageNumber then some textContent else v.pageTexts q }

/-- JavaScript `a || d` on an optional string: the empty string is falsy. -/
def jsOrDefault (a : Option String) (d : String) : String :=
  match a with
  | some t => if t = "" then d else t
  | none => d

/-- Embedding of `getCurrentPageText`, the text handed to the AI-assistant
panel as its `pageText` prop. -/
def getCurrentPageText (v : ViewerState) : String :=
  jsOrDefault (v.pageTexts v.currentPage) ""

/-- The viewer-level events that can change `ViewerState`. -/
inductive ViewerEvent where
  | goTo (n : Int)
  | prev
  | next
  | load (res : Option (LoadedPDF × String))
  | rendered (p : Int) (t : String)
deriving Repr

/-- One step of the viewer under an event (toasts discarded). -/
def viewerStep (e : ViewerEvent) (v : ViewerState) : ViewerState :=
  match e with
  | .goTo n => goToPage n v
  | .prev => handlePreviousPage v
  | .next => handleNextPage v
  | .load res => (loadPDF res v).1
  | .rendered p t => handlePageRendered p t v

/-- Prompt assembly in `handleQuerySubmit` (the `switch (activeTab)`). -/
def buildPrompt (activeTab query pageText : String) : String :=
  if activeTab = "summary" then
    "Summarize the following text in a concise way:\n" ++ pageText
  else if activeTab = "ask" then
    "Answer this question based on the text: " ++ query ++ "\n\nText: " ++ pageText
  else if activeTab = "translate" then
    "Translate the following text to " ++ (if query = "" then "French" else query) ++
      ":\n" ++ pageText
  else
    query

/-- Embedding of `mockAIResponse`: waits 1000 ms (the first component of the
result is the `setTimeout` delay in milliseconds) and then produces the
canned response from the tab, the current page number and the query.  The
`prompt` argument is received but never read by the source. -/
def mockAIResponse (prompt tab : String) (currentPage : Int) (query : String) :
    Nat × String :=
  let _ := prompt
  let mockResponse :=
    if tab = "summary" then
      "## Summary of page " ++ toString currentPage ++
        ":\n\nThis is a simulated AI summary of the text. In a real implementation, this would use the OpenAI API or another AI service to generate an actual summary of the document content.\n\nThe summary would highlight key points from the page content, main topics, and important details."
    else if tab = "ask" then
      "Based on the document content, here\x27s the answer to your question:\n\n" ++
        (if query = "" then "" else "\"" ++ query ++ "\"\n\n") ++
        "This is a simulated AI response. In a real implementation, this would provide an answer based on the actual content of the PDF using an AI service like OpenAI\x27s GPT."
    else if tab = "translate" then
      "Translated text (" ++ (if query = "" then "French" else query) ++
        "):\n\nThis is a simulated translation. In a real implementation, this would provide an actual translation of the selected text using an AI service."
    else
      "I don\x27t understand that request. Please try again."
  (1000, mockResponse)

/-- JavaScript `String.prototype.trim`: strip leading and trailing
whitespace. -/
def jsTrim (s : String) : String :=
  { data := ((s.data.dropWhile Char.isWhitespace).reverse.dropWhile Char.isWhitespace).reverse }

/-- Embedding of `handleQuerySubmit`: guard on an empty trimmed query
outside the summary tab, then build the prompt and run the mock; `none`
means the submission was rejected by the guard, `some (delay, text)` the
delay waited and the response shown. -/
def handleQuerySubmit (activeTab query pageText : String) (currentPage : Int) :
    Option (Nat × String) :=
  if jsTrim query = "" ∧ activeTab ≠ "summary" then none
  else
    some (mockAIResponse (buildPrompt activeTab query pageText) activeTab currentPage query)

/-- The four annotation lists of `s'` agree with those of `s`. -/
def annListsUnchanged (s s' : PageState) : Prop :=
  s'.highlights = s.highlights ∧ s'.paths = s.paths ∧
  s'.textAnnotations = s.textAnnotations ∧ s'.shapes = s.shapes

/-- One pointer event either leaves all four annotation lists unchanged or
appends exactly one entity at the end of exactly one of them. -/
def annAppendStep (s s' : PageState) : Prop :=
  annListsUnchanged s s'
  ∨ (∃ h, s'.highlights = s.highlights ++ [h] ∧ s'.paths = s.paths ∧
      s'.textAnnotations = s.textAnnotations ∧ s'.shapes = s.shapes)
  ∨ (∃ p, s'.paths = s.paths ++ [p] ∧ s'.highlights = s.highlights ∧
      s'.textAnnotations = s.textAnnotations ∧ s'.shapes = s.shapes)
  ∨ (∃ t, s'.textAnnotations = s.textAnnotations ++ [t] ∧ s'.highlights = s.highlights ∧
      s'.paths = s.paths ∧ s'.shapes = s.shapes)
  ∨ (∃ sh, s'.shapes = s.shapes ++ [sh] ∧ s'.highlights = s.highlights ∧
      s'.paths = s.paths ∧ s'.textAnnotations = s.textAnnotations)

lemma textSelection_annStep (sel : SelectionInfo) (container : ClientRect)
    (color : String) (s : PageState) :
    annAppendStep s (handleTextSelection sel container color s) := by
  unfold annAppendStep annListsUnchanged handleTextSelection
  dsimp only
  split
  · exact Or.inr (Or.inl ⟨_, rfl, rfl, rfl, rfl⟩)
  · exact Or.inl ⟨rfl, rfl, rfl, rfl⟩

lemma mouseDown_annStep (env : PointerEnv) (s : PageState) :
    annAppendStep s (handleMouseDown env s) := by
  unfold handleMouseDown
  dsimp only
  split
  · exact Or.inl ⟨rfl, rfl, rfl, rfl⟩
  split
  · exact Or.inl ⟨rfl, rfl, rfl, rfl⟩
  split
  · split
    · split
      · exact Or.inl ⟨rfl, rfl, rfl, rfl⟩
      · exact textSelection_annStep _ _ _ _
    · exact Or.inl ⟨rfl, rfl, rfl, rfl⟩
  split
  · split
    · split
      · exact Or.inl ⟨rfl, rfl, rfl, rfl⟩
      · exact Or.inr (Or.inr (Or.inr (Or.inl ⟨_, rfl, rfl, rfl, rfl⟩)))
    · exact Or.inl ⟨rfl, rfl, rfl, rfl⟩
  split
  · exact Or.inl ⟨rfl, rfl, rfl, rfl⟩
  · exact Or.inl ⟨rfl, rfl, rfl, rfl⟩

lemma mouseMove_annStep (env : PointerEnv) (s : PageState) :
    annAppendStep s (handleMouseMove env s) := by
  unfold annAppendStep annListsUnchanged handleMouseMove
  dsimp only
  split
  · exact Or.inl ⟨rfl, rfl, rfl, rfl⟩
  split
  · exact Or.inl ⟨rfl, rfl, rfl, rfl⟩
  · exact Or.inl ⟨rfl, rfl, rfl, rfl⟩

lemma mouseUp_annStep (env : PointerEnv) (s : PageState) :
    annAppendStep s (handleMouseUp env s) := by
  unfold annAppendStep annListsUnchanged handleMouseUp
  dsimp only
  split
  · exact Or.inl ⟨rfl, rfl, rfl, rfl⟩
  split
  · exact Or.inr (Or.inr (Or.inl ⟨_, rfl, rfl, rfl, rfl⟩))
  split
  · exact Or.inr (Or.inr (Or.inr (Or.inr ⟨_, rfl, rfl, rfl, rfl⟩)))
  · exact Or.inl ⟨rfl, rfl, rfl, rfl⟩

/-- C1: within a single page view, every pointer-event handler (mouse down,
mouse move, mouse up, text selection) either leaves each of the four
annotation lists (highlights, paths, text annotations, shapes) unchanged or
appends exactly one new entity to the end of one list; no existing entity is
ever mutated or removed after creation. -/
theorem c1_pointer_handlers_append_only (env : PointerEnv) (sel : SelectionInfo)
    (container : ClientRect) (color : String) (s : PageState) :
    annAppendStep s (handleMouseDown env s) ∧
    annAppendStep s (handleMouseMove env s) ∧
    annAppendStep s (handleMouseUp env s) ∧
    annAppendStep s (handleTextSelection sel container color s) :=
  ⟨mouseDown_annStep env s, mouseMove_annStep env s, mouseUp_annStep env s,
   textSelection_annStep sel container color s⟩

/-- C2: on every page-render event (any change of the document, page number
or scale re-runs the render effect) all four annotation lists are reset to
empty before the new page is rendered, so no annotation persists across a
page change or a rescale. -/
theorem c2_renderPage_resets_annotations (p : Int) (sc : ℚ)
    (fetched : Option (List (Option String))) (s : PageState) :
    ((renderPage p sc fetched s).1).highlights = [] ∧
    ((renderPage p sc fetched s).1).paths = [] ∧
    ((renderPage p sc fetched s).1).textAnnotations = [] ∧
    ((renderPage p sc fetched s).1).shapes = [] := by
  cases fetched <;> simp [renderPage]

/-- A page state holding one highlight created at some earlier scale, used
to exhibit what a re-render does to previously created annotations. -/
def rescalePage : PageState :=
  { isDrawing := false, startPoint := { x := 0, y := 0 }, currentPath := "",
    paths := [], highlights := [{ rects := [{ x := 10, y := 10, width := 20, height := 5 }],
                                  color := "#FEF7CD" }],
    selectedText := "", textAnnotations := [], shapes := [] }

/-- Counterexample to C3 as stated: re-rendering at a new scale does NOT
leave the prior annotations in place — the render effect resets the
highlight list to empty, discarding the highlight that `rescalePage`
held. -/
theorem c3_counterexample :
    rescalePage.highlights ≠ [] ∧
    ((renderPage 1 (2 : ℚ) (some [some "hi"]) rescalePage).1).highlights = [] := by
  constructor
  · decide
  · rfl

/-- C3 amended: when the scale changes, the coordinates of previously
created annotations are indeed neither persisted nor transformed — but the
prior annotations are not left in place misaligned: the re-render at the new
scale resets all four annotation lists to empty, so they are discarded (its
result does not depend on the scale at all). -/
theorem c3_amended_rescale_discards (p : Int) (sc₁ sc₂ : ℚ)
    (fetched : Option (List (Option String))) (s : PageState) :
    (renderPage p sc₁ fetched s).1 = (renderPage p sc₂ fetched s).1 ∧
    ((renderPage p sc₁ fetched s).1).highlights = [] ∧
    ((renderPage p sc₁ fetched s).1).paths = [] ∧
    ((renderPage p sc₁ fetched s).1).textAnnotations = [] ∧
    ((renderPage p sc₁ fetched s).1).shapes = [] := by
  cases fetched <;> simp [renderPage]

lemma mouseMove_highlights (env : PointerEnv) (s : PageState) :
    (handleMouseMove env s).highlights = s.highlights := by
  unfold handleMouseMove
  dsimp only
  split
  · rfl
  split <;> rfl

lemma mouseUp_highlights (env : PointerEnv) (s : PageState) :
    (handleMouseUp env s).highlights = s.highlights := by
  unfold handleMouseUp
  dsimp only
  split
  · rfl
  split
  · rfl
  split <;> rfl

lemma annAppendStep_highlights_extend {s s' : PageState} (h : annAppendStep s s') :
    ∃ t, s'.highlights = s.highlights ++ t := by
  rcases h with h | ⟨a, ha, -⟩ | ⟨-, -, hh, -⟩ | ⟨-, -, hh, -⟩ | ⟨-, -, hh, -⟩
  · exact ⟨[], by simp [h.1]⟩
  · exact ⟨[a], ha⟩
  · exact ⟨[], by simp [hh]⟩
  · exact ⟨[], by simp [hh]⟩
  · exact ⟨[], by simp [hh]⟩

/-- C4: when the highlight tool is active and a mouse-down occurs with a
non-collapsed text selection, exactly one new highlight is appended whose
rects are the selection's client rectangles at that moment, each translated
into the text layer's coordinate frame (`rect.left - container.left`,
`rect.top - container.top`), paired with the currently selected highlight
color; the highlight is created only if at least one rectangle exists, and
its rectangles (and those of every earlier highlight) are never recomputed
by later pointer events. -/
theorem c4_highlight_from_selection (env : PointerEnv) (s : PageState)
    (sel : SelectionInfo)
    (hTool : env.activeTool = "highlight")
    (hSel : env.selection = some sel)
    (hNC : sel.isCollapsed = false) :
    (sel.clientRects ≠ [] →
      (handleMouseDown env s).highlights =
        s.highlights ++ [{ rects := sel.clientRects.map (relRect env.containerRect),
                           color := env.highlightColor }]) ∧
    (sel.clientRects = [] → (handleMouseDown env s).highlights = s.highlights) ∧
    (∀ env' : PointerEnv, ∀ sel' : SelectionInfo,
      (∃ t, (handleMouseDown env' (handleMouseDown env s)).highlights =
              (handleMouseDown env s).highlights ++ t) ∧
      (handleMouseMove env' (handleMouseDown env s)).highlights =
        (handleMouseDown env s).highlights ∧
      (handleMouseUp env' (handleMouseDown env s)).highlights =
        (handleMouseDown env s).highlights ∧
      (∃ t, (handleTextSelection sel' env'.containerRect env'.highlightColor
              (handleMouseDown env s)).highlights =
              (handleMouseDown env s).highlights ++ t)) := by
  have hne : ¬ env.activeTool = "" := by rw [hTool]; decide
  have hpen : ¬ env.activeTool = "pen" := by rw [hTool]; decide
  refine ⟨?_, ?_, ?_⟩
  · intro hr
    unfold handleMouseDown
    rw [if_neg hne]
    dsimp only
    rw [if_neg hpen, if_pos hTool, hSel]
    dsimp only
    rw [if_neg (by rw [hNC]; decide)]
    unfold handleTextSelection
    dsimp only
    rw [if_pos]
    simpa [List.length_pos] using hr
  · intro hr
    unfold handleMouseDown
    rw [if_neg hne]
    dsimp only
    rw [if_neg hpen, if_pos hTool, hSel]
    dsimp only
    rw [if_neg (by rw [hNC]; decide)]
    unfold handleTextSelection
    dsimp only
    rw [if_neg]
    simp [hr]
  · intro env' sel'
    refine ⟨annAppendStep_highlights_extend (mouseDown_annStep env' _),
      mouseMove_highlights env' _, mouseUp_highlights env' _,
      annAppendStep_highlights_extend (textSelection_annStep sel' _ _ _)⟩

/-- A sample selection with one client rectangle. -/
def c4Sel : SelectionInfo :=
  { isCollapsed := false,
    clientRects := [{ left := 5, top := 6, width := 7, height := 8 }],
    text := "hi" }

/-- A sample mouse-down environment with the highlight tool active over
`c4Sel`. -/
def c4Env : PointerEnv :=
  { activeTool := "highlight", highlightColor := "#FEF7CD",
    clientX := 0, clientY := 0,
    targetRect := { left := 0, top := 0, width := 100, height := 100 },
    selection := some c4Sel,
    containerRect := { left := 1, top := 2, width := 100, height := 100 },
    promptResult := none }

/-- A fresh page state with all annotation lists empty. -/
def samplePage : PageState :=
  { isDrawing := false, startPoint := { x := 0, y := 0 }, currentPath := "",
    paths := [], highlights := [], selectedText := "",
    textAnnotations := [], shapes := [] }

theorem c4_witness :
    (handleMouseDown c4Env samplePage).highlights =
      samplePage.highlights ++
        [{ rects := c4Sel.clientRects.map (relRect c4Env.containerRect),
           color := c4Env.highlightColor }] :=
  (c4_highlight_from_selection c4Env samplePage c4Sel rfl rfl rfl).1 (by decide)

/-- C5: for every submitted assistant request, the response shown is canned
text determined only by the active tab, the current page number and the
typed query — never by the actual page text — and it is produced only after
an artificial delay of 1000 milliseconds. -/
theorem c5_mock_ai_response (tab q : String) (cp : Int) (pt pt' : String) :
    handleQuerySubmit tab q pt cp = handleQuerySubmit tab q pt' cp ∧
    (∀ r : Nat × String, handleQuerySubmit tab q pt cp = some r → r.1 = 1000) := by
  constructor
  · unfold handleQuerySubmit
    split <;> rfl
  · intro r hr
    unfold handleQuerySubmit at hr
    split at hr
    · exact absurd hr (by simp)
    · have : r = mockAIResponse (buildPrompt tab q pt) tab cp q :=
        (Option.some_injective _ hr).symm
      rw [this]
      rfl

theorem c5_witness :
    handleQuerySubmit "ask" "what" "page text A" 3 =
      handleQuerySubmit "ask" "what" "page text B" 3 ∧
    (mockAIResponse (buildPrompt "ask" "what" "page text A") "ask" 3 "what").1 = 1000 :=
  ⟨(c5_mock_ai_response "ask" "what" 3 "page text A" "page text B").1,
   (c5_mock_ai_response "ask" "what" 3 "page text A" "page text B").2
     (mockAIResponse (buildPrompt "ask" "what" "page text A") "ask" 3 "what") (by rfl)⟩

/-- Concatenation, in order, of each string followed by a single space. -/
def concatWithSpaces (strs : List String) : String :=
  strs.foldr (fun a acc => a ++ " " ++ acc) ""

lemma extractPageText_foldl (items : List (Option String)) (acc : String) :
    (items.foldl
      (fun acc it =>
        match it with
        | some s => acc ++ s ++ " "
        | none => acc)
      acc) = acc ++ concatWithSpaces (items.filterMap id) := by
  induction items generalizing acc with
  | nil => simp [concatWithSpaces, String.append_empty]
  | cons it rest ih =>
      cases it with
      | none => simpa [concatWithSpaces] using ih acc
      | some a =>
          simp only [List.foldl_cons, List.filterMap_cons, id, concatWithSpaces,
            List.foldr_cons]
          rw [ih (acc ++ a ++ " ")]
          simp [concatWithSpaces, String.append_assoc]

lemma extractPageText_eq (items : List (Option String)) :
    extractPageText items = concatWithSpaces (items.filterMap id) := by
  have h := extractPageText_foldl items ""
  simpa [extractPageText] using h

/-- C6: after every successful render of page `p`, the overlay invokes the
`onPageRendered` callback exactly once with `(p, t)`, where `t` is the
concatenation, in document order, of each text item's string followed by a
single space; the parent stores `t` in its page-text map under key `p`,
leaving the stored texts of all other pages unchanged, and supplies the
current page's stored text (or the empty string if none) to the AI-assistant
panel. -/
theorem c6_page_text_pipeline (p : Int) (sc : ℚ) (items : List (Option String))
    (s : PageState) (v : ViewerState) (t : String) :
    (renderPage p sc (some items) s).2 = [(p, extractPageText items)] ∧
    extractPageText items = concatWithSpaces (items.filterMap id) ∧
    (handlePageRendered p t v).pageTexts p = some t ∧
    (∀ q : Int, q ≠ p → (handlePageRendered p t v).pageTexts q = v.pageTexts q) ∧
    getCurrentPageText v = (v.pageTexts v.currentPage).getD "" := by
  refine ⟨rfl, extractPageText_eq items, ?_, ?_, ?_⟩
  · simp [handlePageRendered]
  · intro q hq
    simp [handlePageRendered, hq]
  · unfold getCurrentPageText jsOrDefault
    cases h : v.pageTexts v.currentPage with
    | none => rfl
    | some a =>
        by_cases ha : a = "" <;> simp [ha]

/-- A sample viewer state on page 2 of a 5-page document with no stored
page texts. -/
def sampleViewer : ViewerState :=
  { pdfDocument := none, totalPages := 5, currentPage := 2,
    pageTexts := fun _ => none }

theorem c6_witness :
    (renderPage 2 1 (some [some "a", none, some "b"]) samplePage).2
      = [(2, extractPageText [some "a", none, some "b"])] ∧
    extractPageText [some "a", none, some "b"] = concatWithSpaces ["a", "b"] ∧
    (handlePageRendered 2 "a b " sampleViewer).pageTexts 2 = some "a b " ∧
    (handlePageRendered 2 "a b " sampleViewer).pageTexts 3 = sampleViewer.pageTexts 3 ∧
    getCurrentPageText sampleViewer =
      (sampleViewer.pageTexts sampleViewer.currentPage).getD "" := by
  have h := c6_page_text_pipeline 2 1 [some "a", none, some "b"] samplePage sampleViewer "a b "
  exact ⟨h.1, h.2.1, h.2.2.1, h.2.2.2.1 3 (by decide), h.2.2.2.2⟩

/-- The SVG path string a pen stroke builds: `M x y` at the mouse-down
point, then one ` L x y` segment per mouse-move point in order. -/
def renderPathString (p : Point) (ps : List Point) : String :=
  ps.foldl (fun acc q => acc ++ " L " ++ toString q.x ++ " " ++ toString q.y)
    ("M " ++ toString p.x ++ " " ++ toString p.y)

lemma renderPathString_concat (p : Point) (ps : List Point) (q : Point) :
    renderPathString p (ps ++ [q]) =
      renderPathString p ps ++ " L " ++ toString q.x ++ " " ++ toString q.y := by
  unfold renderPathString
  rw [List.foldl_append]
  rfl

lemma mouseDown_pen (env : PointerEnv) (s : PageState)
    (hTool : env.activeTool = "pen") :
    handleMouseDown env s =
      { s with isDrawing := true, startPoint := eventPoint env,
               currentPath := renderPathString (eventPoint env) [] } := by
  unfold handleMouseDown
  rw [hTool]
  simp [renderPathString, eventPoint]

lemma mouseMove_pen (env : PointerEnv) (s : PageState)
    (hD : s.isDrawing = true) (hTool : env.activeTool = "pen") :
    handleMouseMove env s =
      { s with currentPath := s.currentPath ++ " L " ++
          toString (eventPoint env).x ++ " " ++ toString (eventPoint env).y } := by
  unfold handleMouseMove
  rw [hTool, hD]
  simp [eventPoint]

lemma mouseUp_pen (env : PointerEnv) (s : PageState)
    (hTool : env.activeTool = "pen") (hD : s.isDrawing = true) :
    handleMouseUp env s =
      { s with isDrawing := false, currentPath := "",
               paths := s.paths ++ [{ path := s.currentPath,
                                      color := env.highlightColor, type := "pen" }] } := by
  unfold handleMouseUp
  rw [hTool, hD]
  simp

lemma foldl_moves_pen (moves : List PointerEnv) (s : PageState) (p : Point)
    (ps : List Point) (hD : s.isDrawing = true)
    (hm : ∀ e ∈ moves, e.activeTool = "pen")
    (hc : s.currentPath = renderPathString p ps) :
    moves.foldl (fun st e => handleMouseMove e st) s =
      { s with currentPath := renderPathString p (ps ++ moves.map eventPoint) } := by
  induction moves generalizing s ps with
  | nil =>
      simp only [List.foldl_nil, List.map_nil, List.append_nil]
      rw [← hc]
  | cons e rest ih =>
      have he : e.activeTool = "pen" := hm e (by simp)
      rw [List.foldl_cons, mouseMove_pen e s hD he]
      rw [ih ({ s with currentPath := s.currentPath ++ " L " ++
                  toString (eventPoint e).x ++ " " ++ toString (eventPoint e).y })
            (ps ++ [eventPoint e]) hD
            (fun e' h => hm e' (List.mem_cons_of_mem _ h))
            (by rw [renderPathString_concat, ← hc])]
      simp

/-- C7: every completed freehand pen stroke is stored as a path entity
recording the ordered sequence of pointer positions visited between
mouse-down and mouse-up — the mouse-down point first, followed by each
mouse-move point in arrival order (encoded as the SVG string
`M x₀ y₀ L x₁ y₁ …`) — together with the color in effect when the stroke
ends. -/
theorem c7_pen_stroke_records_points (down : PointerEnv) (moves : List PointerEnv)
    (up : PointerEnv) (s : PageState)
    (hd : down.activeTool = "pen")
    (hm : ∀ e ∈ moves, e.activeTool = "pen")
    (hu : up.activeTool = "pen") :
    (handleMouseUp up (moves.foldl (fun st e => handleMouseMove e st)
        (handleMouseDown down s))).paths =
      s.paths ++ [{ path := renderPathString (eventPoint down) (moves.map eventPoint),
                    color := up.highlightColor, type := "pen" }] := by
  rw [mouseDown_pen down s hd]
  rw [foldl_moves_pen moves _ (eventPoint down) [] rfl hm rfl]
  rw [mouseUp_pen up _ hu rfl]
  simp

/-- A mouse-down environment for a pen stroke starting at client (10, 20)
over a target whose top-left client corner is (2, 3). -/
def penDown : PointerEnv :=
  { activeTool := "pen", highlightColor := "#000000", clientX := 10, clientY := 20,
    targetRect := { left := 2, top := 3, width := 0, height := 0 },
    selection := none,
    containerRect := { left := 0, top := 0, width := 0, height := 0 },
    promptResult := none }

/-- A mouse-move environment of the same stroke at client (15, 25). -/
def penMove1 : PointerEnv :=
  { penDown with clientX := 15, clientY := 25 }

/-- The mouse-up environment of the stroke, with a different color selected
than at mouse-down time. -/
def penUp : PointerEnv :=
  { penDown with clientX := 16, clientY := 26, highlightColor := "#FF0000" }

theorem c7_witness :
    (handleMouseUp penUp ([penMove1].foldl (fun st e => handleMouseMove e st)
        (handleMouseDown penDown samplePage))).paths =
      samplePage.paths ++
        [{ path := renderPathString (eventPoint penDown) ([penMove1].map eventPoint),
           color := penUp.highlightColor, type := "pen" }] :=
  c7_pen_stroke_records_points penDown [penMove1] penUp samplePage rfl (by decide) rfl

lemma mouseDown_shape (env : PointerEnv) (s : PageState)
    (hTool : env.activeTool = "shape") :
    handleMouseDown env s = { s with isDrawing := true, startPoint := eventPoint env } := by
  unfold handleMouseDown
  rw [hTool]
  simp [eventPoint]

lemma mouseMove_shape (env : PointerEnv) (s : PageState)
    (hTool : env.activeTool = "shape") :
    handleMouseMove env s = s := by
  unfold handleMouseMove
  rw [hTool]
  simp

lemma foldl_moves_shape (moves : List PointerEnv) (s : PageState)
    (hm : ∀ e ∈ moves, e.activeTool = "shape") :
    moves.foldl (fun st e => handleMouseMove e st) s = s := by
  induction moves generalizing s with
  | nil => rfl
  | cons e rest ih =>
      rw [List.foldl_cons, mouseMove_shape e s (hm e (by simp))]
      exact ih s (fun e' h => hm e' (List.mem_cons_of_mem _ h))

lemma mouseUp_shape (env : PointerEnv) (s : PageState)
    (hTool : env.activeTool = "shape") (hD : s.isDrawing = true) :
    handleMouseUp env s =
      { s with isDrawing := false,
               shapes := s.shapes ++
                 [{ type := "rectangle",
                    x := min (eventPoint env).x s.startPoint.x,
                    y := min (eventPoint env).y s.startPoint.y,
                    width := |(eventPoint env).x - s.startPoint.x|,
                    height := |(eventPoint env).y - s.startPoint.y|,
                    color := env.highlightColor }] } := by
  unfold handleMouseUp
  rw [hTool, hD]
  simp [eventPoint]

/-- C10: every rectangle shape created by a drag from the mouse-down point
`(x₀, y₀)` to the mouse-up point `(x₁, y₁)` is stored normalized regardless
of drag direction: its `x` is `min x₀ x₁`, its `y` is `min y₀ y₁`, its
width is `|x₁ - x₀|` and its height is `|y₁ - y₀|`, so width and height are
always non-negative and `(x, y)` is the top-left corner. -/
theorem c10_shape_normalized (down : PointerEnv) (moves : List PointerEnv)
    (up : PointerEnv) (s : PageState)
    (hd : down.activeTool = "shape")
    (hm : ∀ e ∈ moves, e.activeTool = "shape")
    (hu : up.activeTool = "shape") :
    (handleMouseUp up (moves.foldl (fun st e => handleMouseMove e st)
        (handleMouseDown down s))).shapes =
      s.shapes ++
        [{ type := "rectangle",
           x := min (eventPoint down).x (eventPoint up).x,
           y := min (eventPoint down).y (eventPoint up).y,
           width := |(eventPoint up).x - (eventPoint down).x|,
           height := |(eventPoint up).y - (eventPoint down).y|,
           color := up.highlightColor }] ∧
    0 ≤ |(eventPoint up).x - (eventPoint down).x| ∧
    0 ≤ |(eventPoint up).y - (eventPoint down).y| := by
  rw [mouseDown_shape down s hd]
  rw [foldl_moves_shape moves _ hm]
  rw [mouseUp_shape up _ hu rfl]
  refine ⟨?_, abs_nonneg _, abs_nonneg _⟩
  simp [min_comm]

/-- A mouse-down environment for a shape drag starting at client (30, 40). -/
def shapeDown : PointerEnv :=
  { penDown with activeTool := "shape", clientX := 30, clientY := 40 }

/-- The mouse-up environment of the drag, up and to the left of its start. -/
def shapeUp : PointerEnv :=
  { penDown with activeTool := "shape", clientX := 12, clientY := 18, highlightColor := "#00FF00" }

theorem c10_witness :
    (handleMouseUp shapeUp ([].foldl (fun st e => handleMouseMove e st)
        (handleMouseDown shapeDown samplePage))).shapes =
      samplePage.shapes ++
        [{ type := "rectangle",
           x := min (eventPoint shapeDown).x (eventPoint shapeUp).x,
           y := min (eventPoint shapeDown).y (eventPoint shapeUp).y,
           width := |(eventPoint shapeUp).x - (eventPoint shapeDown).x|,
           height := |(eventPoint shapeUp).y - (eventPoint shapeDown).y|,
           color := shapeUp.highlightColor }] ∧
    0 ≤ |(eventPoint shapeUp).x - (eventPoint shapeDown).x| ∧
    0 ≤ |(eventPoint shapeUp).y - (eventPoint shapeDown).y| :=
  c10_shape_normalized shapeDown [] shapeUp samplePage rfl (by decide) rfl

/-- The current page lies within `[1, totalPages]`. -/
def pageInRange (v : ViewerState) : Prop :=
  1 ≤ v.currentPage ∧ v.currentPage ≤ v.totalPages

/-- Side condition under which an event is considered: a successful load
must deliver a document with at least one page (any real `PDFDocumentProxy`
has `numPages ≥ 1`); every other event is unconditional. -/
def eventOK : ViewerEvent → Prop
  | .load (some (pdf, _)) => 1 ≤ pdf.numPages
  | _ => True

lemma goToPage_pos (v : ViewerState) (n : Int)
    (h : 1 ≤ n ∧ n ≤ v.totalPages) :
    goToPage n v = { v with currentPage := n } := by
  unfold goToPage
  rw [if_pos h]

lemma goToPage_neg (v : ViewerState) (n : Int)
    (h : ¬(1 ≤ n ∧ n ≤ v.totalPages)) :
    goToPage n v = v := by
  unfold goToPage
  rw [if_neg h]

lemma goToPage_preserves (v : ViewerState) (n : Int) (h : pageInRange v) :
    pageInRange (goToPage n v) := by
  unfold goToPage
  split
  · next hc => exact ⟨hc.1, hc.2⟩
  · exact h

/-- C8: `goToPage n` makes the current page `n` exactly when
`1 ≤ n ≤ totalPages` and leaves the state unchanged otherwise; a successful
load of a document with at least one page establishes
`currentPage ∈ [1, totalPages]`, every viewer event preserves it, and the
previous/next operations move the current page by exactly one within those
bounds (and not past them). -/
theorem c8_current_page_in_range (v : ViewerState) (n : Int) :
    ((1 ≤ n ∧ n ≤ v.totalPages) → goToPage n v = { v with currentPage := n }) ∧
    (¬(1 ≤ n ∧ n ≤ v.totalPages) → goToPage n v = v) ∧
    (∀ (pdf : LoadedPDF) (name : String), 1 ≤ pdf.numPages →
      pageInRange (viewerStep (.load (some (pdf, name))) v)) ∧
    (∀ e : ViewerEvent, pageInRange v → eventOK e → pageInRange (viewerStep e v)) ∧
    (pageInRange v →
      (1 < v.currentPage →
        handlePreviousPage v = { v with currentPage := v.currentPage - 1 }) ∧
      (v.currentPage = 1 → handlePreviousPage v = v) ∧
      (v.currentPage < v.totalPages →
        handleNextPage v = { v with currentPage := v.currentPage + 1 }) ∧
      (v.currentPage = v.totalPages → handleNextPage v = v)) := by
  refine ⟨goToPage_pos v n, goToPage_neg v n, ?_, ?_, ?_⟩
  · intro pdf name hp
    exact ⟨le_refl 1, hp⟩
  · intro e h hok
    cases e with
    | goTo m => exact goToPage_preserves v m h
    | prev => exact goToPage_preserves v _ h
    | next => exact goToPage_preserves v _ h
    | load res =>
        cases res with
        | none => exact h
        | some pr => exact ⟨le_refl 1, hok⟩
    | rendered p t => exact h
  · intro h
    obtain ⟨hlow, hhigh⟩ := h
    refine ⟨?_, ?_, ?_, ?_⟩
    · intro h1
      exact goToPage_pos v _ ⟨by omega, by omega⟩
    · intro h1
      exact goToPage_neg v _ (by omega)
    · intro h1
      exact goToPage_pos v _ ⟨by omega, by omega⟩
    · intro h1
      exact goToPage_neg v _ (by omega)

theorem c8_witness :
    goToPage 4 sampleViewer = { sampleViewer with currentPage := 4 } ∧
    pageInRange (viewerStep (.goTo 4) sampleViewer) ∧
    handlePreviousPage sampleViewer = { sampleViewer with currentPage := 1 } ∧
    handleNextPage sampleViewer = { sampleViewer with currentPage := 3 } := by
  have h := c8_current_page_in_range sampleViewer 4
  have hr : pageInRange sampleViewer := ⟨by decide, by decide⟩
  refine ⟨h.1 ⟨by decide, by decide⟩, h.2.2.2.1 (.goTo 4) hr trivial, ?_, ?_⟩
  · exact (h.2.2.2.2 hr).1 (by decide)
  · exact (h.2.2.2.2 hr).2.2.1 (by decide)

/-- C9: if loading a PDF file fails, the viewer's state is unchanged
(`pdfDocument`, `totalPages` and `currentPage` all keep their prior values)
and the single notification emitted is the destructive error toast; if
loading succeeds, `pdfDocument` becomes the loaded document, `totalPages`
its page count and `currentPage` becomes 1. -/
theorem c9_load_error_handling (v : ViewerState)
    (res : Option (LoadedPDF × String)) :
    (res = none →
      (loadPDF res v).1 = v ∧
      (loadPDF res v).2.title = "Error" ∧
      (loadPDF res v).2.isDestructive = true) ∧
    (∀ (pdf : LoadedPDF) (name : String), res = some (pdf, name) →
      (loadPDF res v).1.pdfDocument = some pdf ∧
      (loadPDF res v).1.totalPages = pdf.numPages ∧
      (loadPDF res v).1.currentPage = 1 ∧
      (loadPDF res v).2.isDestructive = false) := by
  constructor
  · intro h
    rw [h]
    exact ⟨rfl, rfl, rfl⟩
  · intro pdf name h
    rw [h]
    exact ⟨rfl, rfl, rfl, rfl⟩

theorem c9_witness :
    (loadPDF none sampleViewer).1 = sampleViewer ∧
    (loadPDF none sampleViewer).2.title = "Error" ∧
    (loadPDF none sampleViewer).2.isDestructive = true ∧
    (loadPDF (some ({ numPages := 7 }, "doc.pdf")) sampleViewer).1.pdfDocument
      = some { numPages := 7 } ∧
    (loadPDF (some ({ numPages := 7 }, "doc.pdf")) sampleViewer).1.totalPages = 7 ∧
    (loadPDF (some ({ numPages := 7 }, "doc.pdf")) sampleViewer).1.currentPage = 1 := by
  have h1 := (c9_load_error_handling sampleViewer none).1 rfl
  have h2 := (c9_load_error_handling sampleViewer
    (some ({ numPages := 7 }, "doc.pdf"))).2 { numPages := 7 } "doc.pdf" rfl
  exact ⟨h1.1, h1.2.1, h1.2.2, h2.1, h2.2.1, h2.2.2.1⟩

end BreezyPDF
